import Mathlib

/-!
Shallow embedding of the authentication subsystem of `gosnowflake`
(`src/auth.go`): request construction, transport status classification
(`postAuth`) and the session-state transition (`authenticate`).

Machine integers of the source (`int` session identifiers, outcome codes)
are modelled as `Int`; strings as Lean `String`; Go maps of session
parameters as unique-key association lists with overwriting insertion;
fallible steps return `Except`/`Option`.
-/

namespace Gosnowflake

/-- `const clientType = "Go"` (auth.go line 21). -/
def clientType : String := "Go"

/-- `authenticatorExternalBrowser = "EXTERNALBROWSER"` (auth.go line 25). -/
def authenticatorExternalBrowser : String := "EXTERNALBROWSER"

/-- `authenticatorOAuth = "OAUTH"` (auth.go line 26). -/
def authenticatorOAuth : String := "OAUTH"

/-- `authenticatorSnowflake = "SNOWFLAKE"` (auth.go line 27). -/
def authenticatorSnowflake : String := "SNOWFLAKE"

/-- `authenticatorOkta = "OKTA"` (auth.go line 28). -/
def authenticatorOkta : String := "OKTA"

/-- Modelled from the spec: the driver version constant
`SnowflakeGoDriverVersion` is defined outside `src/auth.go`; its value is
irrelevant to the claims, only the fact that it is a fixed string. -/
def SnowflakeGoDriverVersion : String := "1.1.5"

/-- `authRequestClientEnvironment` (auth.go lines 40-44). -/
structure authRequestClientEnvironment where
  Application : String
  Os : String
  OsVersion : String
deriving Repr, DecidableEq

/-- `authRequestData` (auth.go lines 45-61); `SvnRevision` and
`BrowserModeRedirectPort` are never assigned by `authenticate` and stay at
the Go zero value. The `SESSION_PARAMETERS` map is an association list. -/
structure authRequestData where
  ClientAppID : String
  ClientAppVersion : String
  SvnRevision : String
  AccountName : String
  LoginName : String
  Password : String
  RawSAMLResponse : String
  ExtAuthnDuoMethod : String
  Passcode : String
  Authenticator : String
  SessionParameters : List (String × String)
  ClientEnvironment : authRequestClientEnvironment
  BrowserModeRedirectPort : String
  ProofKey : String
  Token : String
deriving Repr, DecidableEq

/-- `authResponseSessionInfo` (auth.go lines 71-76). -/
structure authResponseSessionInfo where
  DatabaseName : String
  SchemaName : String
  WarehouseName : String
  RoleName : String
deriving Repr, DecidableEq

/-- `nameValueParameter` (auth.go lines 66-69); the `interface{}` value is
modelled as a string, which is all the claims need. -/
structure nameValueParameter where
  Name : String
  Value : String
deriving Repr, DecidableEq

/-- `authResponseMain` (auth.go lines 78-96), with the fields relevant to
session establishment; the Go `int` `SessionID` is an `Int`. -/
structure authResponseMain where
  Token : String
  MasterToken : String
  DisplayUserName : String
  ServerVersion : String
  SessionID : Int
  Parameters : List nameValueParameter
  SessionInfo : authResponseSessionInfo
deriving Repr, DecidableEq

/-- `authResponse` (auth.go lines 97-102). -/
structure authResponse where
  Data : authResponseMain
  Message : String
  Code : String
  Success : Bool
deriving Repr, DecidableEq

/-- The classification constants (`ErrCodeServiceUnavailable`,
`ErrCodeFailedToConnect`, `ErrFailedToAuth`) and the SQL states live
outside `src/auth.go`; each classification is a distinct constructor. -/
inductive authErrorKind where
  /-- `ErrCodeServiceUnavailable` with `SQLStateConnectionWasNotEstablished`:
  the spec's `ServiceUnavailable`. -/
  | serviceUnavailable
  /-- `ErrCodeFailedToConnect` with `SQLStateConnectionRejected`:
  the spec's transport-level `ConnectionRejected`. -/
  | failedToConnect
  /-- `ErrFailedToAuth` with `SQLStateConnectionRejected`:
  the spec's generic `AuthenticationFailed`. -/
  | failedToAuth
deriving Repr, DecidableEq

/-- The Go `error` values that can escape `postAuth`/`authenticate`. -/
inductive authError where
  /-- A `SnowflakeError` built by `postAuth` from a non-200 HTTP status;
  `MessageArgs` carries the status code (the URL is transport plumbing). -/
  | snowflakeHTTP (kind : authErrorKind) (statusCode : Nat)
  /-- The raw `json.Decoder.Decode` error returned verbatim by `postAuth`
  on a 200 response whose body fails to decode. -/
  | jsonDecodeError
  /-- The raw `strconv.Atoi` error returned verbatim by `authenticate`
  when the response code field does not parse. -/
  | atoiError (input : String)
  /-- The `SnowflakeError` built by `authenticate` on an application-level
  rejection: `Number` = parsed code, `SQLStateConnectionRejected`,
  `Message` = the server message. -/
  | snowflakeApp (number : Int) (message : String)
deriving Repr, DecidableEq

/-- `postAuth` (auth.go lines 104-164), as a function of the HTTP status
code and of the decoded body (`none` when `json.Decode` fails). Request-id
generation, URL formatting and the best-effort diagnostic body read are
transport plumbing with no effect on the returned classification. -/
def postAuth (statusCode : Nat) (decodedBody : Option authResponse) :
    Except authError authResponse :=
  if statusCode = 200 then
    match decodedBody with
    | some respd => .ok respd
    | none => .error .jsonDecodeError
  else if statusCode = 502 ∨ statusCode = 503 ∨ statusCode = 504 then
    .error (.snowflakeHTTP .serviceUnavailable statusCode)
  else if statusCode = 401 ∨ statusCode = 403 then
    .error (.snowflakeHTTP .failedToConnect statusCode)
  else
    .error (.snowflakeHTTP .failedToAuth statusCode)

/-- The fields of `sc.cfg` (a `Config` defined outside `src/auth.go`) that
`authenticate` reads; each field is modelled from its use in auth.go and
the spec's Connection Configuration (§3). `Params` values are `*string`
in Go and are dereferenced on copy, so plain strings here. -/
structure Config where
  Account : String
  User : String
  Password : String
  Passcode : String
  PasscodeInPassword : Bool
  Token : String
  Application : String
  Authenticator : String
  Params : List (String × String)
  Database : String
  Schema : String
  Warehouse : String
  Role : String
deriving Repr, DecidableEq

/-- The mutable session fields of `sc.rest` that `authenticate` writes:
`Token`, `MasterToken`, `SessionID` (auth.go lines 264-266, 279-281). -/
structure SessionRecord where
  Token : String
  MasterToken : String
  SessionID : Int
deriving Repr, DecidableEq

/-- The cleared session record: `Token = ""`, `MasterToken = ""`,
`SessionID = -1` (auth.go lines 264-266). -/
def clearedRecord : SessionRecord := ⟨"", "", -1⟩

/-- `strconv.Atoi`: optional single `+`/`-` sign followed by one or more
decimal digits; anything else is a parse error (`none`). The 64-bit range
check of the Go standard library is elided (`Int` is unbounded); no claim
depends on it. -/
def atoi? (s : String) : Option Int :=
  let parseDigits : List Char → Int → Option Int := fun cs sign =>
    match cs with
    | [] => none
    | _ =>
      if cs.all (fun c => c.isDigit) then
        some (sign * (cs.foldl (fun acc c => acc * 10 + (c.toNat - 48)) 0 : Nat))
      else none
  match s.toList with
  | '-' :: rest => parseDigits rest (-1)
  | '+' :: rest => parseDigits rest 1
  | cs => parseDigits cs 1

/-- Go `strings.ToUpper`, restricted to the ASCII case mapping of
`Char.toUpper` (the scheme names and session-parameter keys the claims
touch are ASCII); written structurally over the character list so it
evaluates by kernel reduction. -/
def toUpperStr (s : String) : String :=
  String.mk (s.toList.map Char.toUpper)

/-- Go map assignment `m[k] = v`, on the association-list representation
of the `sessionParameters` map: overwrite the entry for `k` when one is
present, append the entry otherwise. Maps built from `[]` with this
operation keep their keys unique, matching a Go map. -/
def mapInsert : List (String × String) → String → String → List (String × String)
  | [], k, v => [(k, v)]
  | kv :: rest, k, v =>
    if kv.1 = k then (k, v) :: rest else kv :: mapInsert rest k v

/-- The loop `for k, v := range sc.cfg.Params` with body
`sessionParameters[strings.ToUpper(k)] = *v` (auth.go lines 190-194):
fold the overwriting map assignment over the input entries, so input keys
that collide after upper-casing are last-write-wins. -/
def upsertAll (m : List (String × String)) (ps : List (String × String)) :
    List (String × String) :=
  ps.foldl (fun acc kv => mapInsert acc (toUpperStr kv.1) kv.2) m

/-- Go map lookup `m[k]`, on the association-list representation. -/
def lookupParam : List (String × String) → String → Option String
  | [], _ => none
  | kv :: rest, k => if kv.1 = k then some kv.2 else lookupParam rest k

/-- The value the overwriting loop leaves under key `K`: the value of the
last input entry whose key upper-cases to `K` (later entries take
precedence), `none` when no entry maps to `K`. -/
def lastWriteFor : List (String × String) → String → Option String
  | [], _ => none
  | p :: ps, K =>
    match lastWriteFor ps K with
    | some v => some v
    | none => if toUpperStr p.1 = K then some p.2 else none

/-- The request-construction phase of `authenticate` (auth.go lines
183-234): session-parameter key upper-casing, the authenticator scheme
dispatch and the passcode rules. `samlResponse` and `proofKey` are the
caller-supplied credential bytes; `operatingSystem` and `platform` are the
process-wide runtime strings (auth.go lines 32-35), passed in here. -/
def buildAuthRequestData (cfg : Config) (samlResponse proofKey : String)
    (operatingSystem platform : String) : authRequestData :=
  let clientEnvironment : authRequestClientEnvironment :=
    ⟨cfg.Application, operatingSystem, platform⟩
  let sessionParameters := upsertAll [] cfg.Params
  let requestMain : authRequestData :=
    { ClientAppID := clientType
      ClientAppVersion := SnowflakeGoDriverVersion
      SvnRevision := ""
      AccountName := cfg.Account
      LoginName := ""
      Password := ""
      RawSAMLResponse := ""
      ExtAuthnDuoMethod := ""
      Passcode := ""
      Authenticator := ""
      SessionParameters := sessionParameters
      ClientEnvironment := clientEnvironment
      BrowserModeRedirectPort := ""
      ProofKey := ""
      Token := "" }
  let authenticator := toUpperStr cfg.Authenticator
  if authenticator = authenticatorExternalBrowser then
    { requestMain with
      ProofKey := proofKey
      Token := samlResponse
      LoginName := cfg.User
      Authenticator := authenticatorExternalBrowser }
  else if authenticator = authenticatorOAuth then
    { requestMain with
      LoginName := cfg.User
      Authenticator := authenticatorOAuth
      Token := cfg.Token }
  else if authenticator = authenticatorOkta then
    { requestMain with RawSAMLResponse := samlResponse }
  else
    -- `case authenticatorSnowflake: fallthrough; default:`
    let withCreds := { requestMain with
      LoginName := cfg.User
      Password := cfg.Password }
    if cfg.PasscodeInPassword then
      { withCreds with ExtAuthnDuoMethod := "passcode" }
    else if cfg.Passcode ≠ "" then
      { withCreds with
        Passcode := cfg.Passcode
        ExtAuthnDuoMethod := "passcode" }
    else
      withCreds

/-- The response-interpretation phase of `authenticate` (auth.go lines
257-282), as a function of the prior session record and of the transport
outcome (`FuncPostAuth` is an injected function in Go, so its result is a
parameter). Returns the new session record and the Go return pair. -/
def authenticate (prior : SessionRecord)
    (transport : Except authError authResponse) :
    SessionRecord × Except authError authResponseMain :=
  match transport with
  | .error e => (prior, .error e)
  | .ok respd =>
    if respd.Success then
      (⟨respd.Data.Token, respd.Data.MasterToken, respd.Data.SessionID⟩,
        .ok respd.Data)
    else
      -- auth.go 264-266: clear first, then parse the code
      match atoi? respd.Code with
      | none => (clearedRecord, .error (.atoiError respd.Code))
      | some code => (clearedRecord, .error (.snowflakeApp code respd.Message))

/-! Concrete sample values used by witness theorems. -/

/-- A sample session-info block for witness responses. -/
def sampleInfo : authResponseSessionInfo := ⟨"db", "sch", "wh", "role"⟩

/-- A sample success payload: token `T1`, master token `M1`, session id 7. -/
def sampleData : authResponseMain := ⟨"T1", "M1", "disp", "5.0", 7, [], sampleInfo⟩

/-- A sample successful response (`success = true`). -/
def sampleOk : authResponse := ⟨sampleData, "", "", true⟩

/-- A sample rejected response with a parseable code. -/
def sampleFail : authResponse := ⟨sampleData, "bad creds", "390100", false⟩

/-- A sample rejected response whose code field does not parse as an
integer. -/
def sampleFailUnparseable : authResponse := ⟨sampleData, "denied", "XYZ", false⟩

/-- A sample pre-attempt session record holding stale session state. -/
def staleRecord : SessionRecord := ⟨"t0", "m0", 5⟩

/-- Claim C8: when the transport invocation fails with any error, the
negotiator propagates that error unchanged and leaves the session record
exactly as it was before the attempt. -/
theorem authenticate_transport_failure_frame (prior : SessionRecord)
    (e : authError) :
    authenticate prior (.error e) = (prior, .error e) := rfl

/-- Claim C5: when the transport succeeds and the response has
`Success = true`, the session record is set exactly to the response data's
token, master token and session id, and the response's data record is
returned to the caller. -/
theorem authenticate_success_commits (prior : SessionRecord)
    (respd : authResponse) (h : respd.Success = true) :
    authenticate prior (.ok respd) =
      (⟨respd.Data.Token, respd.Data.MasterToken, respd.Data.SessionID⟩,
        .ok respd.Data) := by
  simp [authenticate, h]

/-- Witness for C5 at a concrete successful response. -/
theorem authenticate_success_commits_witness :
    authenticate staleRecord (.ok sampleOk) = (⟨"T1", "M1", 7⟩, .ok sampleData) :=
  authenticate_success_commits staleRecord sampleOk rfl

/-- Claim C2: after any attempt that obtained a response, the session
record is either set exactly from the response data or fully cleared,
never partially updated; every `Success = false` response fully clears it
regardless of the prior record. -/
theorem authenticate_record_atomicity (prior : SessionRecord)
    (respd : authResponse) :
    ((authenticate prior (.ok respd)).1 =
        ⟨respd.Data.Token, respd.Data.MasterToken, respd.Data.SessionID⟩
      ∨ (authenticate prior (.ok respd)).1 = clearedRecord)
    ∧ (respd.Success = false → (authenticate prior (.ok respd)).1 = clearedRecord) := by
  unfold authenticate
  cases h : respd.Success with
  | true => simp [h]
  | false => cases hc : atoi? respd.Code <;> simp [h, hc]

/-- Witness for C2: a rejected response clears a stale record. -/
theorem authenticate_record_atomicity_witness :
    (authenticate staleRecord (.ok sampleFail)).1 = clearedRecord :=
  (authenticate_record_atomicity staleRecord sampleFail).2 rfl

/-- Claim C1 (divergence shown at the failing input): on a rejected
response whose code field does not parse as an integer, `authenticate`
clears the record but returns the raw integer-parse error, not a
`ConnectionRejected` error carrying a sentinel code and the server
message: the `code = -1` sentinel assignment in auth.go line 269 is dead. -/
theorem authenticate_unparseable_code_divergence :
    authenticate staleRecord (.ok sampleFailUnparseable) =
      (clearedRecord, .error (.atoiError "XYZ"))
    ∧ authError.atoiError "XYZ" ≠ authError.snowflakeApp (-1) "denied" := by
  constructor
  · rfl
  · decide

/-- Claim C3: transport statuses 502/503/504 yield the service-unavailable
classification, 401/403 the connection-rejected classification, any other
non-200 status the generic failed-to-auth classification carrying the
status code, and a 200 status returns the decoded response verbatim. -/
theorem postAuth_status_classification (statusCode : Nat)
    (body : Option authResponse) :
    (statusCode = 502 ∨ statusCode = 503 ∨ statusCode = 504 →
      postAuth statusCode body = .error (.snowflakeHTTP .serviceUnavailable statusCode))
    ∧ (statusCode = 401 ∨ statusCode = 403 →
      postAuth statusCode body = .error (.snowflakeHTTP .failedToConnect statusCode))
    ∧ (statusCode ≠ 200 →
      ¬(statusCode = 502 ∨ statusCode = 503 ∨ statusCode = 504) →
      ¬(statusCode = 401 ∨ statusCode = 403) →
      postAuth statusCode body = .error (.snowflakeHTTP .failedToAuth statusCode))
    ∧ (∀ respd, body = some respd → postAuth 200 body = .ok respd) := by
  refine ⟨?_, ?_, ?_, ?_⟩
  · rintro (h | h | h) <;> subst h <;> simp [postAuth]
  · rintro (h | h) <;> subst h <;> simp [postAuth]
  · intro h1 h2 h3
    simp only [postAuth, if_neg h1, if_neg h2, if_neg h3]
  · intro respd h
    subst h
    simp [postAuth]

/-- Witness for C3 at concrete statuses 503, 401, 418 and 200. -/
theorem postAuth_status_classification_witness :
    postAuth 503 none = .error (.snowflakeHTTP .serviceUnavailable 503)
    ∧ postAuth 401 none = .error (.snowflakeHTTP .failedToConnect 401)
    ∧ postAuth 418 none = .error (.snowflakeHTTP .failedToAuth 418)
    ∧ postAuth 200 (some sampleOk) = .ok sampleOk :=
  ⟨(postAuth_status_classification 503 none).1 (by decide),
   (postAuth_status_classification 401 none).2.1 (by decide),
   (postAuth_status_classification 418 none).2.2.1 (by decide) (by decide) (by decide),
   (postAuth_status_classification 200 (some sampleOk)).2.2.2 sampleOk rfl⟩

/-- Claim C4: a 200 status whose body fails to decode yields the distinct
decode-failure error, which is a different constructor from every
status-classified `SnowflakeError` (failed-to-auth, failed-to-connect) and
from every application-level rejection. -/
theorem postAuth_decode_failure_malformed :
    postAuth 200 none = .error .jsonDecodeError
    ∧ authError.jsonDecodeError ≠ authError.snowflakeHTTP .failedToAuth 200
    ∧ authError.jsonDecodeError ≠ authError.snowflakeHTTP .failedToConnect 200
    ∧ authError.jsonDecodeError ≠ authError.snowflakeApp (-1) "" := by
  refine ⟨rfl, by decide, by decide, by decide⟩

/-! Sample connection configurations used by witness theorems. -/

/-- A default-scheme (username/password) configuration. -/
def cfgDefault : Config :=
  { Account := "acme", User := "user1", Password := "hunter2", Passcode := "",
    PasscodeInPassword := false, Token := "", Application := "app",
    Authenticator := "snowflake", Params := [("warehouse", "x")],
    Database := "", Schema := "", Warehouse := "", Role := "" }

/-- An `oauth`-scheme configuration (mixed-case scheme name). -/
def cfgOAuth : Config := { cfgDefault with Authenticator := "OAuth", Token := "tok" }

/-- An `okta`-scheme configuration. -/
def cfgOkta : Config := { cfgDefault with Authenticator := "okta" }

/-- An `externalbrowser`-scheme configuration. -/
def cfgBrowser : Config := { cfgDefault with Authenticator := "ExternalBrowser" }

/-- A default-scheme configuration with both the standalone passcode and
the passcode-embedded-in-password flag set. -/
def cfgBothPasscode : Config :=
  { cfgDefault with PasscodeInPassword := true, Passcode := "123456" }

/-- A default-scheme configuration with only the standalone passcode set. -/
def cfgOnlyPasscode : Config := { cfgDefault with Passcode := "123456" }

/-- A configuration whose parameter keys `a` and `A` collide after
upper-casing, with distinct values. -/
def cfgCollide : Config := { cfgDefault with Params := [("a", "1"), ("A", "2")] }

/-- The session-parameter map of the built request is the overwriting fold
of the upper-cased input entries, in every scheme branch. -/
theorem buildAuthRequestData_SessionParameters (cfg : Config)
    (samlResponse proofKey operatingSystem platform : String) :
    (buildAuthRequestData cfg samlResponse proofKey operatingSystem platform).SessionParameters
      = upsertAll [] cfg.Params := by
  simp only [buildAuthRequestData]
  split_ifs <;> rfl

/-- Overwriting the entry for `k` makes `k` map to `v`. -/
theorem lookupParam_mapInsert_self (m : List (String × String)) (k v : String) :
    lookupParam (mapInsert m k v) k = some v := by
  induction m with
  | nil => simp [mapInsert, lookupParam]
  | cons kv rest ih =>
    by_cases h : kv.1 = k
    · simp [mapInsert, h, lookupParam]
    · simp [mapInsert, h, lookupParam, ih]

/-- Overwriting the entry for `k` leaves every other key unchanged. -/
theorem lookupParam_mapInsert_ne (m : List (String × String)) (k v K : String)
    (h : K ≠ k) :
    lookupParam (mapInsert m k v) K = lookupParam m K := by
  induction m with
  | nil => simp [mapInsert, lookupParam, Ne.symm h]
  | cons kv rest ih =>
    by_cases hk : kv.1 = k
    · have hK : kv.1 ≠ K := fun hh => h (hh ▸ hk)
      simp [mapInsert, hk, lookupParam, Ne.symm h, hK]
    · simp only [mapInsert, if_neg hk, lookupParam]
      by_cases hkK : kv.1 = K
      · simp [hkK]
      · simp [hkK, ih]

/-- The overwriting fold realises last-write-wins: looking up `K` in the
folded map yields the last write for `K`, falling back to the initial map
when no input entry maps to `K`. -/
theorem lookupParam_upsertAll (ps : List (String × String))
    (m : List (String × String)) (K : String) :
    lookupParam (upsertAll m ps) K =
      match lastWriteFor ps K with
      | some v => some v
      | none => lookupParam m K := by
  induction ps generalizing m with
  | nil => rfl
  | cons p ps ih =>
    show lookupParam (upsertAll (mapInsert m (toUpperStr p.1) p.2) ps) K = _
    rw [ih]
    have hstep : lastWriteFor (p :: ps) K =
        match lastWriteFor ps K with
        | some v => some v
        | none => if toUpperStr p.1 = K then some p.2 else none := rfl
    rw [hstep]
    cases hfind : lastWriteFor ps K with
    | some v => rfl
    | none =>
      by_cases hK : toUpperStr p.1 = K
      · rw [if_pos hK, ← hK]
        exact lookupParam_mapInsert_self m (toUpperStr p.1) p.2
      · rw [if_neg hK]
        exact lookupParam_mapInsert_ne m (toUpperStr p.1) p.2 K (fun hh => hK hh.symm)

/-- Every input entry guarantees its upper-cased key has a last write. -/
theorem lastWriteFor_isSome_of_mem (ps : List (String × String)) (k v : String)
    (h : (k, v) ∈ ps) :
    ∃ w, lastWriteFor ps (toUpperStr k) = some w := by
  induction ps with
  | nil => cases h
  | cons p ps ih =>
    cases h with
    | head =>
      cases hfind : lastWriteFor ps (toUpperStr k) with
      | some w => exact ⟨w, by simp [lastWriteFor, hfind]⟩
      | none => exact ⟨v, by simp [lastWriteFor, hfind]⟩
    | tail _ hmem =>
      obtain ⟨w, hw⟩ := ih hmem
      exact ⟨w, by simp [lastWriteFor, hw]⟩

/-- Claim C9 is false as stated: with input parameters
`[("a", "1"), ("A", "2")]` the pair `(toUpper "a", "1") = ("A", "1")` is
absent from the built request — the later colliding write overwrote the
value `"1"`, leaving the parameter map exactly `[("A", "2")]`. -/
theorem sessionParameters_collision_counterexample :
    ((toUpperStr "a", "1") ∉
      (buildAuthRequestData cfgCollide "" "" "os" "pl").SessionParameters)
    ∧ (buildAuthRequestData cfgCollide "" "" "os" "pl").SessionParameters
      = [("A", "2")] := by
  exact ⟨by decide, by decide⟩

/-- Claim C9 (amended): every session-parameter override key appears in
the built request upper-cased; its value is that of the last input entry
whose key upper-cases to it (collisions after upper-casing are
last-write-wins), copied unchanged — so `(toUpper k, v)` is present
whenever `(k, v)` is the last such entry, and in particular whenever no
other input key collides with `k` after upper-casing. -/
theorem sessionParameters_uppercase_last_write (cfg : Config)
    (samlResponse proofKey operatingSystem platform k v : String)
    (h : (k, v) ∈ cfg.Params) :
    (∃ w, lookupParam
      (buildAuthRequestData cfg samlResponse proofKey operatingSystem platform).SessionParameters
      (toUpperStr k) = some w)
    ∧ lookupParam
        (buildAuthRequestData cfg samlResponse proofKey operatingSystem platform).SessionParameters
        (toUpperStr k) = lastWriteFor cfg.Params (toUpperStr k)
    ∧ (lastWriteFor cfg.Params (toUpperStr k) = some v →
      lookupParam
        (buildAuthRequestData cfg samlResponse proofKey operatingSystem platform).SessionParameters
        (toUpperStr k) = some v) := by
  have hkey : lookupParam
      (buildAuthRequestData cfg samlResponse proofKey operatingSystem platform).SessionParameters
      (toUpperStr k) = lastWriteFor cfg.Params (toUpperStr k) := by
    rw [buildAuthRequestData_SessionParameters, lookupParam_upsertAll]
    cases lastWriteFor cfg.Params (toUpperStr k) <;> rfl
  obtain ⟨w, hw⟩ := lastWriteFor_isSome_of_mem cfg.Params k v h
  exact ⟨⟨w, hkey.trans hw⟩, hkey, fun hv => hkey.trans hv⟩

/-- Witness for C9 (amended): at the colliding configuration the later
write `("A", "2")` wins, and at the collision-free default configuration
input key `warehouse` appears as `WAREHOUSE` with its value unchanged. -/
theorem sessionParameters_uppercase_last_write_witness :
    lookupParam (buildAuthRequestData cfgCollide "" "" "os" "pl").SessionParameters
      (toUpperStr "a") = lastWriteFor cfgCollide.Params (toUpperStr "a")
    ∧ lastWriteFor cfgCollide.Params (toUpperStr "a") = some "2"
    ∧ lookupParam (buildAuthRequestData cfgDefault "" "" "os" "pl").SessionParameters
      (toUpperStr "warehouse") = some "x" :=
  ⟨(sessionParameters_uppercase_last_write cfgCollide "" "" "os" "pl" "a" "1"
      (by decide)).2.1,
   by decide,
   (sessionParameters_uppercase_last_write cfgDefault "" "" "os" "pl" "warehouse" "x"
      (by decide)).2.2 (by decide)⟩

/-- Claim C6: the built request never carries fields reserved for another
scheme: oauth requests have empty password, SAML and proof-key fields;
okta requests have no login name and no password; external-browser
requests have no password; a non-empty password implies the default
scheme. -/
theorem buildRequest_scheme_isolation (cfg : Config)
    (samlResponse proofKey operatingSystem platform : String) :
    (toUpperStr cfg.Authenticator = authenticatorOAuth →
      (buildAuthRequestData cfg samlResponse proofKey operatingSystem platform).Password = ""
      ∧ (buildAuthRequestData cfg samlResponse proofKey operatingSystem platform).RawSAMLResponse = ""
      ∧ (buildAuthRequestData cfg samlResponse proofKey operatingSystem platform).ProofKey = "")
    ∧ (toUpperStr cfg.Authenticator = authenticatorOkta →
      (buildAuthRequestData cfg samlResponse proofKey operatingSystem platform).LoginName = ""
      ∧ (buildAuthRequestData cfg samlResponse proofKey operatingSystem platform).Password = "")
    ∧ (toUpperStr cfg.Authenticator = authenticatorExternalBrowser →
      (buildAuthRequestData cfg samlResponse proofKey operatingSystem platform).Password = "")
    ∧ ((buildAuthRequestData cfg samlResponse proofKey operatingSystem platform).Password ≠ "" →
      toUpperStr cfg.Authenticator ≠ authenticatorExternalBrowser
      ∧ toUpperStr cfg.Authenticator ≠ authenticatorOAuth
      ∧ toUpperStr cfg.Authenticator ≠ authenticatorOkta) := by
  refine ⟨?_, ?_, ?_, ?_⟩
  · intro h
    simp [buildAuthRequestData, h, authenticatorOAuth, authenticatorExternalBrowser,
      authenticatorOkta]
  · intro h
    simp [buildAuthRequestData, h, authenticatorOAuth, authenticatorExternalBrowser,
      authenticatorOkta]
  · intro h
    simp [buildAuthRequestData, h, authenticatorExternalBrowser]
  · intro hp
    refine ⟨?_, ?_, ?_⟩ <;> intro h <;> apply hp <;>
      simp [buildAuthRequestData, h, authenticatorOAuth, authenticatorExternalBrowser,
        authenticatorOkta]

/-- Witness for C6 at concrete oauth, okta, external-browser and default
configurations. -/
theorem buildRequest_scheme_isolation_witness :
    ((buildAuthRequestData cfgOAuth "s" "p" "os" "pl").Password = ""
      ∧ (buildAuthRequestData cfgOAuth "s" "p" "os" "pl").RawSAMLResponse = ""
      ∧ (buildAuthRequestData cfgOAuth "s" "p" "os" "pl").ProofKey = "")
    ∧ ((buildAuthRequestData cfgOkta "s" "p" "os" "pl").LoginName = ""
      ∧ (buildAuthRequestData cfgOkta "s" "p" "os" "pl").Password = "")
    ∧ (buildAuthRequestData cfgBrowser "s" "p" "os" "pl").Password = ""
    ∧ toUpperStr cfgDefault.Authenticator ≠ authenticatorOAuth :=
  ⟨(buildRequest_scheme_isolation cfgOAuth "s" "p" "os" "pl").1 (by decide),
   (buildRequest_scheme_isolation cfgOkta "s" "p" "os" "pl").2.1 (by decide),
   (buildRequest_scheme_isolation cfgBrowser "s" "p" "os" "pl").2.2.1 (by decide),
   ((buildRequest_scheme_isolation cfgDefault "s" "p" "os" "pl").2.2.2 (by decide)).2.1⟩

/-- Claim C7: on the default scheme, if both the standalone passcode and
the passcode-embedded-in-password flag are configured, the built request
sets the duo-method hint and omits the standalone passcode field; if only
the standalone passcode is set, both the passcode field and the same hint
are populated. -/
theorem buildRequest_passcode_precedence (cfg : Config)
    (samlResponse proofKey operatingSystem platform : String)
    (hEB : toUpperStr cfg.Authenticator ≠ authenticatorExternalBrowser)
    (hOA : toUpperStr cfg.Authenticator ≠ authenticatorOAuth)
    (hOK : toUpperStr cfg.Authenticator ≠ authenticatorOkta) :
    (cfg.PasscodeInPassword = true → cfg.Passcode ≠ "" →
      (buildAuthRequestData cfg samlResponse proofKey operatingSystem platform).ExtAuthnDuoMethod = "passcode"
      ∧ (buildAuthRequestData cfg samlResponse proofKey operatingSystem platform).Passcode = "")
    ∧ (cfg.PasscodeInPassword = false → cfg.Passcode ≠ "" →
      (buildAuthRequestData cfg samlResponse proofKey operatingSystem platform).Passcode = cfg.Passcode
      ∧ (buildAuthRequestData cfg samlResponse proofKey operatingSystem platform).ExtAuthnDuoMethod = "passcode") := by
  constructor
  · intro h _
    simp [buildAuthRequestData, if_neg hEB, if_neg hOA, if_neg hOK, h]
  · intro h hne
    simp [buildAuthRequestData, if_neg hEB, if_neg hOA, if_neg hOK, h, hne]

/-- Witness for C7 at a configuration with both passcode paths set and one
with only the standalone passcode. -/
theorem buildRequest_passcode_precedence_witness :
    ((buildAuthRequestData cfgBothPasscode "" "" "os" "pl").ExtAuthnDuoMethod = "passcode"
      ∧ (buildAuthRequestData cfgBothPasscode "" "" "os" "pl").Passcode = "")
    ∧ ((buildAuthRequestData cfgOnlyPasscode "" "" "os" "pl").Passcode = "123456"
      ∧ (buildAuthRequestData cfgOnlyPasscode "" "" "os" "pl").ExtAuthnDuoMethod = "passcode") :=
  ⟨(buildRequest_passcode_precedence cfgBothPasscode "" "" "os" "pl"
      (by decide) (by decide) (by decide)).1 rfl (by decide),
   (buildRequest_passcode_precedence cfgOnlyPasscode "" "" "os" "pl"
      (by decide) (by decide) (by decide)).2 rfl (by decide)⟩

/-- Claim C10: the built request's AUTHENTICATOR field carries the scheme
name for the external-browser and oauth schemes, and is left empty for the
okta scheme and for the default password scheme. -/
theorem authenticator_field_population (cfg : Config)
    (samlResponse proofKey operatingSystem platform : String) :
    (toUpperStr cfg.Authenticator = authenticatorExternalBrowser →
      (buildAuthRequestData cfg samlResponse proofKey operatingSystem platform).Authenticator
        = authenticatorExternalBrowser)
    ∧ (toUpperStr cfg.Authenticator = authenticatorOAuth →
      (buildAuthRequestData cfg samlResponse proofKey operatingSystem platform).Authenticator
        = authenticatorOAuth)
    ∧ (toUpperStr cfg.Authenticator = authenticatorOkta →
      (buildAuthRequestData cfg samlResponse proofKey operatingSystem platform).Authenticator = "")
    ∧ (toUpperStr cfg.Authenticator ≠ authenticatorExternalBrowser →
      toUpperStr cfg.Authenticator ≠ authenticatorOAuth →
      toUpperStr cfg.Authenticator ≠ authenticatorOkta →
      (buildAuthRequestData cfg samlResponse proofKey operatingSystem platform).Authenticator = "") := by
  refine ⟨?_, ?_, ?_, ?_⟩
  · intro h
    simp [buildAuthRequestData, h, authenticatorOAuth, authenticatorExternalBrowser,
      authenticatorOkta]
  · intro h
    simp [buildAuthRequestData, h, authenticatorOAuth, authenticatorExternalBrowser,
      authenticatorOkta]
  · intro h
    simp [buildAuthRequestData, h, authenticatorOAuth, authenticatorExternalBrowser,
      authenticatorOkta]
  · intro hEB hOA hOK
    simp only [buildAuthRequestData, if_neg hEB, if_neg hOA, if_neg hOK]
    split_ifs <;> rfl

/-- Witness for C10 at concrete configurations of all four schemes. -/
theorem authenticator_field_population_witness :
    (buildAuthRequestData cfgBrowser "s" "p" "os" "pl").Authenticator = "EXTERNALBROWSER"
    ∧ (buildAuthRequestData cfgOAuth "s" "p" "os" "pl").Authenticator = "OAUTH"
    ∧ (buildAuthRequestData cfgOkta "s" "p" "os" "pl").Authenticator = ""
    ∧ (buildAuthRequestData cfgDefault "s" "p" "os" "pl").Authenticator = "" :=
  ⟨(authenticator_field_population cfgBrowser "s" "p" "os" "pl").1 (by decide),
   (authenticator_field_population cfgOAuth "s" "p" "os" "pl").2.1 (by decide),
   (authenticator_field_population cfgOkta "s" "p" "os" "pl").2.2.1 (by decide),
   (authenticator_field_population cfgDefault "s" "p" "os" "pl").2.2.2
     (by decide) (by decide) (by decide)⟩

end Gosnowflake
